import Mathlib

/-!
Verification development for the pet-care-and-adoption backend
(src/src/index.ts).  The source file concatenates two revisions of the
service: an authenticated revision (JWT middleware, lines 1-419) and an
unauthenticated revision (lines 420-927).  Handlers from both revisions are
embedded here; names carry the suffix `Auth` or `Unauth` when both revisions
define the route.

The persistence substrate (azle StableBTreeMap) is modelled, following the
spec, as an ordered association list keyed by string identifiers; `insert`
replaces the value of an existing key in place and appends a fresh key.
Timestamps (`new Date()`) are abstract `Nat` instants supplied by the caller,
and fresh uuids are string parameters.  Request-body values are modelled by
`JsVal`, which records exactly what the validation code inspects: the
JavaScript type tag and truthiness.
-/

/-- A JavaScript request-body value, as far as the handlers inspect it:
a string, a number, null/undefined (an absent field), or a value of some
other type carrying only its truthiness. -/
inductive JsVal where
  | vstr (s : String)
  | vnum (n : Int)
  | vnull
  | vother (truthy : Bool)
deriving DecidableEq, Repr

/-- Evaluation of the idiom `x && typeof x === "string"` (equivalently the
validation guard `!x || typeof x !== "string"`): yields the string when `x`
is a truthy string, and `none` otherwise. -/
def JsVal.asTruthyStr : JsVal → Option String
  | .vstr s => if s = "" then none else some s
  | _ => none

/-- Evaluation of the guard `!x || typeof x !== "number"`: yields the number
when `x` is a truthy (non-zero) number, and `none` otherwise. -/
def JsVal.asTruthyNum : JsVal → Option Int
  | .vnum n => if n = 0 then none else some n
  | _ => none

/-- Evaluation of an optional string argument, as in the feedback handlers:
the guard `(x && typeof x !== "string")` rejects a truthy non-string; the
stored value is `x || null`.  Yields `some stored` when the guard passes and
`none` when validation fails. -/
def JsVal.optStrArg : JsVal → Option (Option String)
  | .vstr s => if s = "" then some none else some (some s)
  | .vnum n => if n = 0 then some none else none
  | .vnull => some none
  | .vother t => if t then none else some none

/-- JavaScript `Array.prototype.slice(s, e)` for non-negative indices. -/
def jsSlice {α : Type} (l : List α) (s e : Nat) : List α :=
  (l.drop s).take (e - s)

/-- The record store: an ordered association list from string identifiers to
records, iterated in the stored order (spec section 4.1). -/
abbrev Store (α : Type) : Type := List (String × α)

/-- Model of `storage.get(id)`. -/
def Store.get {α : Type} (s : Store α) (k : String) : Option α :=
  (s.find? (fun p => p.1 = k)).map (fun p => p.2)

/-- Model of `storage.insert(id, v)`: replaces the value of an existing key
in place, appends a fresh key. -/
def Store.insert {α : Type} (s : Store α) (k : String) (v : α) : Store α :=
  if s.any (fun p => p.1 = k) then
    s.map (fun p => if p.1 = k then (k, v) else p)
  else
    s ++ [(k, v)]

/-- Model of `storage.remove(id)`. -/
def Store.remove {α : Type} (s : Store α) (k : String) : Store α :=
  s.filter (fun p => ¬ p.1 = k)

/-- Model of `Array.from(storage.values())`. -/
def Store.values {α : Type} (s : Store α) : List α :=
  s.map (fun p => p.2)

/-- Model of `storage.size`. -/
def Store.size {α : Type} (s : Store α) : Nat := s.length

/-- The `User` class of the authenticated revision (index.ts lines 10-26):
it additionally stores a hashed password, here an opaque string. -/
structure AuthUser where
  id : String
  name : String
  contact : String
  userType : String
  password : String
  createdAt : Nat
deriving DecidableEq, Repr

/-- The `User` class of the unauthenticated revision (index.ts lines
424-439). -/
structure User where
  id : String
  name : String
  contact : String
  userType : String
  createdAt : Nat
deriving DecidableEq, Repr

/-- The `Pet` class (identical in both revisions, lines 29-51 and
442-464). -/
structure Pet where
  id : String
  ownerId : String
  name : String
  species : String
  breed : String
  age : Int
  description : String
  status : String
  createdAt : Nat
deriving DecidableEq, Repr

/-- The `AdoptionRequest` class (identical in both revisions, lines 54-70
and 467-483).  The constructor always initialises `approvedAt` to null. -/
structure AdoptionRequest where
  id : String
  petId : String
  adopterId : String
  status : String
  requestedAt : Nat
  approvedAt : Option Nat
deriving DecidableEq, Repr

/-- The `PetCareEvent` class (lines 73-91 and 486-504). -/
structure PetCareEvent where
  id : String
  title : String
  description : String
  dateTime : Nat
  location : String
  organizerId : String
  createdAt : Nat
deriving DecidableEq, Repr

/-- The `Feedback` class (lines 94-112 and 507-525). -/
structure Feedback where
  id : String
  userId : String
  petId : Option String
  eventId : Option String
  feedback : String
  rating : Int
  createdAt : Nat
deriving DecidableEq, Repr

/-- The `Donation` class (lines 115-127 and 528-540). -/
structure Donation where
  id : String
  donorId : String
  amount : Int
  createdAt : Nat
deriving DecidableEq, Repr

instance {ε α : Type} [DecidableEq ε] [DecidableEq α] : DecidableEq (Except ε α) := fun a b =>
  match a, b with
  | .ok x, .ok y =>
      if h : x = y then .isTrue (by rw [h]) else .isFalse (by simp [h])
  | .error x, .error y =>
      if h : x = y then .isTrue (by rw [h]) else .isFalse (by simp [h])
  | .ok _, .error _ => .isFalse (by simp)
  | .error _, .ok _ => .isFalse (by simp)

/-- Result page of GET /users in the authenticated revision (lines
221-240). -/
structure UsersPage where
  users : List AuthUser
  page : Nat
  limit : Nat
  total : Nat
deriving DecidableEq, Repr

/-- Handler of GET /users with pagination, authenticated revision (lines
221-240): `slice((page-1)*limit, page*limit)` over the values, `total` is
the store size.  `page` and `limit` are the already-parsed query values. -/
def getUsers (store : Store AuthUser) (page limit : Nat) : UsersPage :=
  { users := jsSlice (Store.values store) ((page - 1) * limit) (page * limit)
    page := page
    limit := limit
    total := Store.size store }

/-- Result page of GET /pets in the authenticated revision (lines
279-311). -/
structure PetsPage where
  pets : List Pet
  page : Nat
  limit : Nat
  total : Nat
deriving DecidableEq, Repr

/-- The filter pipeline of GET /pets (lines 289-297): filter by species when
the query parameter is a truthy string, then by status likewise. -/
def filteredPets (store : Store Pet) (species status : Option String) : List Pet :=
  let pets0 := Store.values store
  let pets1 := match species with
    | some sp => if sp = "" then pets0 else pets0.filter (fun p => p.species = sp)
    | none => pets0
  match status with
    | some st => if st = "" then pets1 else pets1.filter (fun p => p.status = st)
    | none => pets1

/-- Handler of GET /pets with filtering and pagination, authenticated
revision (lines 279-311): filter, then slice, with `total` taken from the
filtered list. -/
def getPets (store : Store Pet) (species status : Option String) (page limit : Nat) : PetsPage :=
  let pets := filteredPets store species status
  { pets := jsSlice pets ((page - 1) * limit) (page * limit)
    page := page
    limit := limit
    total := pets.length }

/-- Handler of POST /pets in the authenticated revision (lines 243-276):
validates that every field is a truthy value of the right type and inserts;
no check that `ownerId` resolves to a user, and `status` is stored as
supplied. -/
def postPetAuth (store : Store Pet)
    (ownerIdB nameB speciesB breedB ageB descriptionB statusB : JsVal)
    (newId : String) (now : Nat) : Store Pet × Except String Pet :=
  match ownerIdB.asTruthyStr, nameB.asTruthyStr, speciesB.asTruthyStr,
        breedB.asTruthyStr, ageB.asTruthyNum, descriptionB.asTruthyStr,
        statusB.asTruthyStr with
  | some ownerId, some name, some species, some breed, some age,
    some description, some status =>
      let pet : Pet :=
        { id := newId, ownerId := ownerId, name := name, species := species
          breed := breed, age := age, description := description
          status := status, createdAt := now }
      (Store.insert store newId pet, .ok pet)
  | _, _, _, _, _, _, _ =>
      (store, .error "Invalid input: missing or mistyped pet fields.")

/-- Handler of POST /pets in the unauthenticated revision (lines 585-609):
same field validation, then requires `ownerId` to resolve in the user store
before inserting. -/
def postPetUnauth (users : Store User) (store : Store Pet)
    (ownerIdB nameB speciesB breedB ageB descriptionB statusB : JsVal)
    (newId : String) (now : Nat) : Store Pet × Except String Pet :=
  match ownerIdB.asTruthyStr, nameB.asTruthyStr, speciesB.asTruthyStr,
        breedB.asTruthyStr, ageB.asTruthyNum, descriptionB.asTruthyStr,
        statusB.asTruthyStr with
  | some ownerId, some name, some species, some breed, some age,
    some description, some status =>
      match Store.get users ownerId with
      | none => (store, .error "Invalid input: ownerId is not a valid owner ID.")
      | some _ =>
          let pet : Pet :=
            { id := newId, ownerId := ownerId, name := name, species := species
              breed := breed, age := age, description := description
              status := status, createdAt := now }
          (Store.insert store newId pet, .ok pet)
  | _, _, _, _, _, _, _ =>
      (store, .error "Invalid input: missing or mistyped pet fields.")

/-- Handler of POST /adoption-requests in the authenticated revision (lines
314-331): the adopter comes from the token, only `petId` is validated as a
truthy string, and no pet store is consulted at all; the request is created
with status Pending and null approvedAt. -/
def postAdoptionRequestAuth (store : Store AdoptionRequest) (adopterId : String)
    (petIdB : JsVal) (newId : String) (now : Nat) :
    Store AdoptionRequest × Except String AdoptionRequest :=
  match petIdB.asTruthyStr with
  | none => (store, .error "Invalid input: petId must be provided.")
  | some petId =>
      let r : AdoptionRequest :=
        { id := newId, petId := petId, adopterId := adopterId
          status := "Pending", requestedAt := now, approvedAt := none }
      (Store.insert store newId r, .ok r)

/-- Handler of POST /adoption-requests in the unauthenticated revision
(lines 623-644): validates `petId`, `adopterId`, `status` as truthy strings,
requires the pet to exist, and stores the caller-supplied status verbatim
with null approvedAt. -/
def postAdoptionRequestUnauth (pets : Store Pet) (store : Store AdoptionRequest)
    (petIdB adopterIdB statusB : JsVal) (newId : String) (now : Nat) :
    Store AdoptionRequest × Except String AdoptionRequest :=
  match petIdB.asTruthyStr, adopterIdB.asTruthyStr, statusB.asTruthyStr with
  | some petId, some adopterId, some status =>
      match Store.get pets petId with
      | none => (store, .error "Invalid input: petId is not a valid pet ID.")
      | some _ =>
          let r : AdoptionRequest :=
            { id := newId, petId := petId, adopterId := adopterId
              status := status, requestedAt := now, approvedAt := none }
          (Store.insert store newId r, .ok r)
  | _, _, _ =>
      (store, .error "Invalid input: missing or mistyped adoption request fields.")

/-- Handler of PUT /adoption-requests/:id (lines 827-837): loads the
request, overwrites `status` with the body value whenever that value is a
truthy string — with no membership check against the Pending/Approved/
Rejected enumeration — re-inserts, and never touches `approvedAt` or any
pet record. -/
def putAdoptionRequest (store : Store AdoptionRequest) (reqId : String)
    (statusB : JsVal) : Store AdoptionRequest × Except String AdoptionRequest :=
  match Store.get store reqId with
  | none => (store, .error "Adoption request not found.")
  | some r =>
      let r1 := match statusB.asTruthyStr with
        | some s => { r with status := s }
        | none => r
      (Store.insert store reqId r1, .ok r1)

/-- Handler of DELETE /adoption-requests/:id (lines 840-848). -/
def deleteAdoptionRequest (store : Store AdoptionRequest) (reqId : String) :
    Store AdoptionRequest × Except String Unit :=
  match Store.get store reqId with
  | none => (store, .error "Adoption request not found.")
  | some _ => (Store.remove store reqId, .ok ())

/-- Handler of POST /feedbacks in the authenticated revision (lines
365-391): `userId` comes from the token, `feedback` must be a truthy
string, `rating` a truthy number (no range check), `petId`/`eventId` each
absent-or-string; no store is consulted for references. -/
def postFeedbackAuth (store : Store Feedback) (userId : String)
    (petIdB eventIdB feedbackB ratingB : JsVal) (newId : String) (now : Nat) :
    Store Feedback × Except String Feedback :=
  match feedbackB.asTruthyStr, ratingB.asTruthyNum,
        petIdB.optStrArg, eventIdB.optStrArg with
  | some text, some rating, some petId, some eventId =>
      let f : Feedback :=
        { id := newId, userId := userId, petId := petId, eventId := eventId
          feedback := text, rating := rating, createdAt := now }
      (Store.insert store newId f, .ok f)
  | _, _, _, _ =>
      (store, .error "Invalid input: missing or mistyped feedback fields.")

/-- Handler of POST /feedbacks in the unauthenticated revision (lines
689-727): same field validation plus `userId` as a truthy string, then
referential checks — the user must exist, and the pet / event must exist
when the corresponding optional field is present.  The rating is stored
without any range check. -/
def postFeedbackUnauth (users : Store User) (pets : Store Pet)
    (events : Store PetCareEvent) (store : Store Feedback)
    (userIdB feedbackB ratingB petIdB eventIdB : JsVal)
    (newId : String) (now : Nat) : Store Feedback × Except String Feedback :=
  match userIdB.asTruthyStr, feedbackB.asTruthyStr, ratingB.asTruthyNum,
        petIdB.optStrArg, eventIdB.optStrArg with
  | some userId, some text, some rating, some petId, some eventId =>
      if (Store.get users userId).isNone then
        (store, .error "Invalid input: userId is not a valid user ID.")
      else if (petId.map (fun pid => (Store.get pets pid).isNone)).getD false then
        (store, .error "Invalid input: petId is not a valid pet ID.")
      else if (eventId.map (fun eid => (Store.get events eid).isNone)).getD false then
        (store, .error "Invalid input: eventId is not a valid pet care event ID.")
      else
        let f : Feedback :=
          { id := newId, userId := userId, petId := petId, eventId := eventId
            feedback := text, rating := rating, createdAt := now }
        (Store.insert store newId f, .ok f)
  | _, _, _, _, _ =>
      (store, .error "Invalid input: missing or mistyped feedback fields.")

/-- Handler of PUT /users/:id, unauthenticated revision (lines 772-784):
conditionally overwrites name, contact, userType; `id` and `createdAt` are
never assigned. -/
def putUser (store : Store User) (uid : String) (nameB contactB userTypeB : JsVal) :
    Store User × Except String User :=
  match Store.get store uid with
  | none => (store, .error "User not found.")
  | some u =>
      let u1 := match nameB.asTruthyStr with
        | some s => { u with name := s }
        | none => u
      let u2 := match contactB.asTruthyStr with
        | some s => { u1 with contact := s }
        | none => u1
      let u3 := match userTypeB.asTruthyStr with
        | some s => { u2 with userType := s }
        | none => u2
      (Store.insert store uid u3, .ok u3)

/-- Handler of PUT /pets/:id (lines 798-813): conditionally overwrites
name, species, breed, age, description and status; `id`, `ownerId` and
`createdAt` are never assigned. -/
def putPet (store : Store Pet) (pid : String)
    (nameB speciesB breedB ageB descriptionB statusB : JsVal) :
    Store Pet × Except String Pet :=
  match Store.get store pid with
  | none => (store, .error "Pet not found.")
  | some p =>
      let p1 := match nameB.asTruthyStr with
        | some s => { p with name := s }
        | none => p
      let p2 := match speciesB.asTruthyStr with
        | some s => { p1 with species := s }
        | none => p1
      let p3 := match breedB.asTruthyStr with
        | some s => { p2 with breed := s }
        | none => p2
      let p4 := match ageB.asTruthyNum with
        | some n => { p3 with age := n }
        | none => p3
      let p5 := match descriptionB.asTruthyStr with
        | some s => { p4 with description := s }
        | none => p4
      let p6 := match statusB.asTruthyStr with
        | some s => { p5 with status := s }
        | none => p5
      (Store.insert store pid p6, .ok p6)

/-- Handler of PUT /feedbacks/:id (lines 878-889): conditionally overwrites
the feedback text and rating only. -/
def putFeedback (store : Store Feedback) (fid : String) (feedbackB ratingB : JsVal) :
    Store Feedback × Except String Feedback :=
  match Store.get store fid with
  | none => (store, .error "Feedback not found.")
  | some f =>
      let f1 := match feedbackB.asTruthyStr with
        | some s => { f with feedback := s }
        | none => f
      let f2 := match ratingB.asTruthyNum with
        | some n => { f1 with rating := n }
        | none => f1
      (Store.insert store fid f2, .ok f2)

/-- Handler of PUT /donations/:id (lines 903-913): conditionally overwrites
the amount only. -/
def putDonation (store : Store Donation) (did : String) (amountB : JsVal) :
    Store Donation × Except String Donation :=
  match Store.get store did with
  | none => (store, .error "Donation not found.")
  | some d =>
      let d1 := match amountB.asTruthyNum with
        | some n => { d with amount := n }
        | none => d
      (Store.insert store did d1, .ok d1)

/-- One step of the adoption-request store under the operations of the
program that touch it: creation by either revision of POST
/adoption-requests, update by PUT /adoption-requests/:id, and deletion by
DELETE /adoption-requests/:id.  The pet store consulted by the
unauthenticated creation is arbitrary. -/
inductive ARStep : Store AdoptionRequest → Store AdoptionRequest → Prop where
  | createAuth (s : Store AdoptionRequest) (adopterId : String) (petIdB : JsVal)
      (newId : String) (now : Nat) :
      ARStep s (postAdoptionRequestAuth s adopterId petIdB newId now).1
  | createUnauth (pets : Store Pet) (s : Store AdoptionRequest)
      (petIdB adopterIdB statusB : JsVal) (newId : String) (now : Nat) :
      ARStep s (postAdoptionRequestUnauth pets s petIdB adopterIdB statusB newId now).1
  | update (s : Store AdoptionRequest) (reqId : String) (statusB : JsVal) :
      ARStep s (putAdoptionRequest s reqId statusB).1
  | del (s : Store AdoptionRequest) (reqId : String) :
      ARStep s (deleteAdoptionRequest s reqId).1

/-- Reachability of an adoption-request store from the empty store. -/
def ARReachable (s : Store AdoptionRequest) : Prop :=
  Relation.ReflTransGen ARStep [] s

/-- A sample pet used in concrete scenarios. -/
def petP1 : Pet :=
  { id := "p1", ownerId := "u1", name := "Rex", species := "Dog", breed := "Lab"
    age := 3, description := "friendly", status := "Available", createdAt := 0 }

/-- A sample pending adoption request used in concrete scenarios. -/
def pendingReq : AdoptionRequest :=
  { id := "r1", petId := "p1", adopterId := "u2", status := "Pending"
    requestedAt := 0, approvedAt := none }

/-- Sample data: unauthenticated-revision users. -/
def userU1 : User :=
  { id := "u1", name := "Lorna", contact := "lorna at mail", userType := "Owner"
    createdAt := 0 }

/-- Sample store holding `userU1`. -/
def usersW : Store User := [("u1", userU1)]

/-- Sample data: authenticated-revision users for pagination scenarios. -/
def authUsersW : Store AuthUser :=
  [ ("u1", { id := "u1", name := "A", contact := "a", userType := "Owner"
             password := "h1", createdAt := 0 }),
    ("u2", { id := "u2", name := "B", contact := "b", userType := "Adopter"
             password := "h2", createdAt := 1 }),
    ("u3", { id := "u3", name := "C", contact := "c", userType := "Shelter"
             password := "h3", createdAt := 2 }) ]

/-- Sample pet: an available dog. -/
def petA : Pet :=
  { id := "a", ownerId := "u1", name := "Rex", species := "Dog", breed := "Lab"
    age := 3, description := "d", status := "Available", createdAt := 0 }

/-- Sample pet: an available cat. -/
def petB : Pet :=
  { id := "b", ownerId := "u1", name := "Tom", species := "Cat", breed := "Mix"
    age := 2, description := "d", status := "Available", createdAt := 0 }

/-- Sample pet: an adopted dog. -/
def petC : Pet :=
  { id := "c", ownerId := "u1", name := "Fido", species := "Dog", breed := "Pug"
    age := 4, description := "d", status := "Adopted", createdAt := 0 }

/-- Sample pet store for filter-and-paginate scenarios: two dogs and a
cat. -/
def petsW : Store Pet := [("a", petA), ("b", petB), ("c", petC)]

/-- The request stored by the unauthenticated POST /adoption-requests when
the caller supplies status Approved: approvedAt is still null. -/
def approvedOnCreate : AdoptionRequest :=
  { id := "r1", petId := "p1", adopterId := "u2", status := "Approved"
    requestedAt := 0, approvedAt := none }

/-- The adoption-request store reached by one unauthenticated creation with
caller-supplied status Approved. -/
def cexState : Store AdoptionRequest :=
  (postAdoptionRequestUnauth [("p1", petP1)] []
    (.vstr "p1") (.vstr "u2") (.vstr "Approved") "r1" 0).1

/-- A pet whose creation request carried status Adopted. -/
def adoptedPet : Pet :=
  { id := "p2", ownerId := "u1", name := "Tom", species := "Cat", breed := "Mix"
    age := 2, description := "calm", status := "Adopted", createdAt := 0 }

/-- The pet stored by the authenticated POST /pets for a dangling owner. -/
def ghostPet : Pet :=
  { id := "p9", ownerId := "ghost", name := "Rex", species := "Dog"
    breed := "Lab", age := 3, description := "friendly", status := "Available"
    createdAt := 0 }

/-- The feedback record stored for a rating of 6. -/
def fb6 : Feedback :=
  { id := "f1", userId := "u1", petId := none, eventId := none
    feedback := "great", rating := 6, createdAt := 0 }

theorem Store.mem_values_of_get {α : Type} {s : Store α} {k : String} {v : α}
    (h : Store.get s k = some v) : v ∈ Store.values s := by
  unfold Store.get at h
  cases hf : s.find? (fun p => p.1 = k) with
  | none => rw [hf] at h; simp at h
  | some p =>
      rw [hf] at h
      simp only [Option.map_some'] at h
      cases h
      exact List.mem_map_of_mem _ (List.mem_of_find?_eq_some hf)

theorem Store.mem_values_insert {α : Type} {s : Store α} {k : String} {v x : α}
    (h : x ∈ Store.values (Store.insert s k v)) : x ∈ Store.values s ∨ x = v := by
  unfold Store.insert at h
  split at h
  · unfold Store.values at h ⊢
    rw [List.map_map] at h
    rcases List.mem_map.1 h with ⟨p, hp, hx⟩
    by_cases hk : p.1 = k
    · right
      simp [hk] at hx
      exact hx.symm
    · left
      simp [hk] at hx
      exact hx ▸ List.mem_map_of_mem _ hp
  · unfold Store.values at h ⊢
    rw [List.map_append] at h
    rcases List.mem_append.1 h with h1 | h2
    · exact Or.inl h1
    · right
      simpa using h2

theorem Store.mem_values_remove {α : Type} {s : Store α} {k : String} {x : α}
    (h : x ∈ Store.values (Store.remove s k)) : x ∈ Store.values s := by
  unfold Store.remove Store.values at h
  unfold Store.values
  rcases List.mem_map.1 h with ⟨p, hp, hx⟩
  exact hx ▸ List.mem_map_of_mem _ (List.mem_of_mem_filter hp)

theorem succ_mul_sub_mul (q limit : Nat) : (q + 1) * limit - q * limit = limit := by
  rw [Nat.succ_mul]
  exact Nat.add_sub_cancel_left (q * limit) limit

theorem jsSlice_page {α : Type} (l : List α) (limit q : Nat) :
    jsSlice l (q * limit) ((q + 1) * limit) = (l.drop (q * limit)).take limit := by
  unfold jsSlice
  rw [succ_mul_sub_mul]

theorem pages_flatten {α : Type} (l : List α) (limit : Nat) :
    ∀ k, ((List.range k).map (fun i => (l.drop (i * limit)).take limit)).flatten
      = l.take (k * limit) := by
  intro k
  induction k with
  | zero => simp
  | succ k ih =>
      rw [List.range_succ, List.map_append, List.flatten_append, ih]
      simp only [List.map_cons, List.map_nil]
      rw [show (k + 1) * limit = k * limit + limit from Nat.succ_mul k limit,
        List.take_add]
      simp

theorem putAdoptionRequest_set {store : Store AdoptionRequest} {reqId : String}
    {r : AdoptionRequest} (h : Store.get store reqId = some r) (s : String)
    (hs : s ≠ "") :
    putAdoptionRequest store reqId (.vstr s) =
      (Store.insert store reqId { r with status := s }, .ok { r with status := s }) := by
  unfold putAdoptionRequest
  rw [h]
  simp [JsVal.asTruthyStr, hs]

theorem postPetAuth_ok (store : Store Pet) (o n sp b : String) (a : Int)
    (d st : String) (newId : String) (now : Nat) (ho : o ≠ "") (hn : n ≠ "")
    (hsp : sp ≠ "") (hb : b ≠ "") (ha : a ≠ 0) (hd : d ≠ "") (hst : st ≠ "") :
    postPetAuth store (.vstr o) (.vstr n) (.vstr sp) (.vstr b) (.vnum a) (.vstr d)
        (.vstr st) newId now =
      (Store.insert store newId
        { id := newId, ownerId := o, name := n, species := sp, breed := b
          age := a, description := d, status := st, createdAt := now },
       .ok { id := newId, ownerId := o, name := n, species := sp, breed := b
             age := a, description := d, status := st, createdAt := now }) := by
  unfold postPetAuth
  simp [JsVal.asTruthyStr, JsVal.asTruthyNum, ho, hn, hsp, hb, ha, hd, hst]

theorem ar_inv_createAuth (s : Store AdoptionRequest) (adopterId : String)
    (petIdB : JsVal) (newId : String) (now : Nat) {r : AdoptionRequest}
    (hr : r ∈ Store.values (postAdoptionRequestAuth s adopterId petIdB newId now).1) :
    r ∈ Store.values s ∨ r.approvedAt = none := by
  unfold postAdoptionRequestAuth at hr
  cases hs : petIdB.asTruthyStr with
  | none => rw [hs] at hr; exact Or.inl hr
  | some pid =>
      rw [hs] at hr
      rcases Store.mem_values_insert hr with h1 | h1
      · exact Or.inl h1
      · exact Or.inr (by rw [h1])

theorem ar_inv_createUnauth (pets : Store Pet) (s : Store AdoptionRequest)
    (petIdB adopterIdB statusB : JsVal) (newId : String) (now : Nat)
    {r : AdoptionRequest}
    (hr : r ∈ Store.values
      (postAdoptionRequestUnauth pets s petIdB adopterIdB statusB newId now).1) :
    r ∈ Store.values s ∨ r.approvedAt = none := by
  unfold postAdoptionRequestUnauth at hr
  cases h1 : petIdB.asTruthyStr with
  | none => rw [h1] at hr; exact Or.inl hr
  | some pid =>
    cases h2 : adopterIdB.asTruthyStr with
    | none => rw [h1, h2] at hr; exact Or.inl hr
    | some aid =>
      cases h3 : statusB.asTruthyStr with
      | none => rw [h1, h2, h3] at hr; exact Or.inl hr
      | some st =>
          simp only [h1, h2, h3] at hr
          cases h4 : Store.get pets pid with
          | none => simp only [h4] at hr; exact Or.inl hr
          | some p =>
              simp only [h4] at hr
              rcases Store.mem_values_insert hr with h5 | h5
              · exact Or.inl h5
              · exact Or.inr (by rw [h5])

theorem ar_inv_update (s : Store AdoptionRequest) (reqId : String) (statusB : JsVal)
    {r : AdoptionRequest}
    (hr : r ∈ Store.values (putAdoptionRequest s reqId statusB).1) :
    r ∈ Store.values s ∨ ∃ r0 ∈ Store.values s, r.approvedAt = r0.approvedAt := by
  unfold putAdoptionRequest at hr
  cases hg : Store.get s reqId with
  | none => rw [hg] at hr; exact Or.inl hr
  | some r0 =>
      rw [hg] at hr
      have h0 : r0 ∈ Store.values s := Store.mem_values_of_get hg
      cases hs : statusB.asTruthyStr with
      | none =>
          rw [hs] at hr
          rcases Store.mem_values_insert hr with h1 | h1
          · exact Or.inl h1
          · exact Or.inr ⟨r0, h0, by rw [h1]⟩
      | some st =>
          rw [hs] at hr
          rcases Store.mem_values_insert hr with h1 | h1
          · exact Or.inl h1
          · exact Or.inr ⟨r0, h0, by rw [h1]⟩

theorem ar_inv_del (s : Store AdoptionRequest) (reqId : String) {r : AdoptionRequest}
    (hr : r ∈ Store.values (deleteAdoptionRequest s reqId).1) :
    r ∈ Store.values s := by
  unfold deleteAdoptionRequest at hr
  cases hg : Store.get s reqId with
  | none => rw [hg] at hr; exact hr
  | some r0 => rw [hg] at hr; exact Store.mem_values_remove hr

/-- Claim C1, counterexample to the claim as stated: on a store holding one
Pending request, PUT /adoption-requests/:id with status Approved returns
and stores a request whose approvedAt is still null — the handler (index.ts
lines 827-837) only assigns the status field and never sets approvedAt nor
touches any pet. -/
theorem claim_C1_counterexample :
    (putAdoptionRequest [("r1", pendingReq)] "r1" (.vstr "Approved")).2 =
        .ok { pendingReq with status := "Approved" } ∧
      ({ pendingReq with status := "Approved" } : AdoptionRequest).approvedAt = none ∧
      (putAdoptionRequest [("r1", pendingReq)] "r1" (.vstr "Approved")).1 =
        [("r1", { pendingReq with status := "Approved" })] := by
  decide

/-- Claim C1, amended: applying the status-update operation with newStatus
Approved to a stored Pending request sets its status to Approved but leaves
approvedAt exactly as it was (null stays null); the handler takes no pet
store at all, so no Pet's status changes. -/
theorem claim_C1 (store : Store AdoptionRequest) (reqId : String)
    (r : AdoptionRequest) (h : Store.get store reqId = some r)
    (hpend : r.status = "Pending") :
    putAdoptionRequest store reqId (.vstr "Approved") =
        (Store.insert store reqId { r with status := "Approved" },
         .ok { r with status := "Approved" }) ∧
      ({ r with status := "Approved" } : AdoptionRequest).approvedAt = r.approvedAt :=
  ⟨putAdoptionRequest_set h "Approved" (by decide), rfl⟩

/-- Claim C1, witness at a concrete Pending request. -/
theorem claim_C1_witness :
    putAdoptionRequest [("r1", pendingReq)] "r1" (.vstr "Approved") =
        (Store.insert [("r1", pendingReq)] "r1" { pendingReq with status := "Approved" },
         .ok { pendingReq with status := "Approved" }) ∧
      ({ pendingReq with status := "Approved" } : AdoptionRequest).approvedAt =
        pendingReq.approvedAt :=
  claim_C1 [("r1", pendingReq)] "r1" pendingReq (by decide) (by decide)

/-- Claim C6, counterexample to the claim as stated: the status-update
operation accepts the out-of-enumeration value Banana, stores it, and
reports success — there is no InvalidStatus rejection in the handler. -/
theorem claim_C6_counterexample :
    (putAdoptionRequest [("r1", pendingReq)] "r1" (.vstr "Banana")).2 =
        .ok { pendingReq with status := "Banana" } ∧
      (putAdoptionRequest [("r1", pendingReq)] "r1" (.vstr "Banana")).1 =
        [("r1", { pendingReq with status := "Banana" })] ∧
      ¬ ("Banana" = "Pending" ∨ "Banana" = "Approved" ∨ "Banana" = "Rejected") := by
  decide

/-- Claim C6, amended: for an existing request the status-update operation
stores any non-empty string verbatim as the new status (no enumeration
check, no InvalidStatus failure); a missing, empty or non-string status
leaves the stored status unchanged and the call still succeeds. -/
theorem claim_C6 (store : Store AdoptionRequest) (reqId : String)
    (r : AdoptionRequest) (h : Store.get store reqId = some r) (s : String)
    (hs : s ≠ "") :
    putAdoptionRequest store reqId (.vstr s) =
        (Store.insert store reqId { r with status := s }, .ok { r with status := s }) ∧
      (putAdoptionRequest store reqId .vnull).2 = .ok r := by
  refine ⟨putAdoptionRequest_set h s hs, ?_⟩
  unfold putAdoptionRequest
  rw [h]
  simp [JsVal.asTruthyStr]

/-- Claim C6, witness at a concrete request and the status Banana. -/
theorem claim_C6_witness :
    putAdoptionRequest [("r1", pendingReq)] "r1" (.vstr "Banana") =
        (Store.insert [("r1", pendingReq)] "r1" { pendingReq with status := "Banana" },
         .ok { pendingReq with status := "Banana" }) ∧
      (putAdoptionRequest [("r1", pendingReq)] "r1" JsVal.vnull).2 = .ok pendingReq :=
  claim_C6 [("r1", pendingReq)] "r1" pendingReq (by decide) "Banana" (by decide)

/-- Claim C3, counterexample to the claim as stated: the state holding one
request created by the unauthenticated POST /adoption-requests with
caller-supplied status Approved is reachable, and that stored request has
status Approved while approvedAt is null, violating the if-and-only-if
invariant. -/
theorem claim_C3_counterexample :
    ARReachable cexState ∧ approvedOnCreate ∈ Store.values cexState ∧
      ¬ (approvedOnCreate.approvedAt ≠ none ↔ approvedOnCreate.status = "Approved") := by
  refine ⟨Relation.ReflTransGen.single ?_, by decide, by decide⟩
  exact ARStep.createUnauth [("p1", petP1)] [] (.vstr "p1") (.vstr "u2")
    (.vstr "Approved") "r1" 0

/-- Claim C3, amended: in every state reachable by the program's
adoption-request operations, every stored request has approvedAt = null —
no code path ever assigns approvedAt, so the only direction of the claimed
equivalence that survives is that non-null approvedAt never occurs at
all. -/
theorem claim_C3 (s : Store AdoptionRequest) (h : ARReachable s) :
    ∀ r ∈ Store.values s, r.approvedAt = none := by
  unfold ARReachable at h
  induction h with
  | refl => intro r hr; simp [Store.values] at hr
  | tail _hab hbc ih =>
      cases hbc with
      | createAuth =>
          rename_i adopterId petIdB newId now
          intro r hr
          rcases ar_inv_createAuth _ adopterId petIdB newId now hr with h1 | h1
          · exact ih r h1
          · exact h1
      | createUnauth =>
          rename_i pets petIdB adopterIdB statusB newId now
          intro r hr
          rcases ar_inv_createUnauth pets _ petIdB adopterIdB statusB newId now hr
            with h1 | h1
          · exact ih r h1
          · exact h1
      | update =>
          rename_i reqId statusB
          intro r hr
          rcases ar_inv_update _ reqId statusB hr with h1 | ⟨r0, h0, heq⟩
          · exact ih r h1
          · rw [heq]; exact ih r0 h0
      | del =>
          rename_i reqId
          intro r hr
          exact ih r (ar_inv_del _ reqId hr)

/-- Claim C3, witness: the amended invariant evaluated on a concrete
reachable state and the concrete request it stores. -/
theorem claim_C3_witness : approvedOnCreate.approvedAt = none :=
  claim_C3 cexState
    (Relation.ReflTransGen.single
      (ARStep.createUnauth [("p1", petP1)] [] (.vstr "p1") (.vstr "u2")
        (.vstr "Approved") "r1" 0))
    approvedOnCreate (by decide)

/-- Claim C2, confirmed: the pet listing filters the full value list first
and slices afterwards; the returned total is the length of the filtered
list (before pagination), the returned items are the slice of the filtered
list, the number of returned items is min(limit, filteredCount - offset),
and every returned pet belongs to the filtered list. -/
theorem claim_C2 (store : Store Pet) (species status : Option String)
    (page limit : Nat) (hp : 1 ≤ page) :
    (getPets store species status page limit).total =
        (filteredPets store species status).length ∧
      (getPets store species status page limit).pets =
        jsSlice (filteredPets store species status) ((page - 1) * limit) (page * limit) ∧
      (getPets store species status page limit).pets.length =
        min limit ((filteredPets store species status).length - (page - 1) * limit) ∧
      ∀ p ∈ (getPets store species status page limit).pets,
        p ∈ filteredPets store species status := by
  obtain ⟨q, rfl⟩ : ∃ q, page = q + 1 := ⟨page - 1, (Nat.succ_pred_eq_of_pos hp).symm⟩
  have h11 : q + 1 - 1 = q := rfl
  refine ⟨rfl, rfl, ?_, ?_⟩
  · show (jsSlice (filteredPets store species status) ((q + 1 - 1) * limit)
        ((q + 1) * limit)).length = _
    rw [h11, jsSlice_page, List.length_take, List.length_drop]
  · intro p hp2
    have hp3 : p ∈ (filteredPets store species status).drop ((q + 1 - 1) * limit) :=
      List.mem_of_mem_take hp2
    exact List.mem_of_mem_drop hp3

/-- Claim C2, witness: a three-pet store filtered to dogs, page 2 with
limit 1. -/
theorem claim_C2_witness :
    (getPets petsW (some "Dog") none 2 1).pets.length =
      min 1 ((filteredPets petsW (some "Dog") none).length - 1) :=
  (claim_C2 petsW (some "Dog") none 2 1 (by decide)).2.2.1

/-- Claim C7, confirmed: for page, limit at least 1 the user listing
returns exactly min(limit, N - (page-1)*limit) items (the natural
subtraction is zero when the offset exceeds N), the page is empty when the
offset reaches the store size, and concatenating the pages 1, 2, ..., k
for any k with N at most k*limit reconstructs the full value list in
order. -/
theorem claim_C7 (store : Store AuthUser) (page limit : Nat)
    (hp : 1 ≤ page) (hl : 1 ≤ limit) :
    (getUsers store page limit).users.length =
        min limit (Store.size store - (page - 1) * limit) ∧
      (Store.size store ≤ (page - 1) * limit → (getUsers store page limit).users = []) ∧
      ∀ k, Store.size store ≤ k * limit →
        ((List.range k).map (fun i => (getUsers store (i + 1) limit).users)).flatten =
          Store.values store := by
  have hv : (Store.values store).length = Store.size store := by
    simp [Store.values, Store.size]
  have hpage : ∀ i : Nat, (getUsers store (i + 1) limit).users =
      ((Store.values store).drop (i * limit)).take limit := by
    intro i
    show jsSlice (Store.values store) ((i + 1 - 1) * limit) ((i + 1) * limit) = _
    rw [show i + 1 - 1 = i from rfl, jsSlice_page]
  obtain ⟨q, rfl⟩ : ∃ q, page = q + 1 := ⟨page - 1, (Nat.succ_pred_eq_of_pos hp).symm⟩
  have h11 : q + 1 - 1 = q := rfl
  refine ⟨?_, ?_, ?_⟩
  · rw [h11, hpage q, List.length_take, List.length_drop, hv]
  · intro hle
    rw [h11] at hle
    rw [hpage q]
    have hd : (Store.values store).drop (q * limit) = [] :=
      List.drop_eq_nil_of_le (by rw [hv]; exact hle)
    rw [hd]
    simp
  · intro k hk
    simp only [hpage]
    rw [pages_flatten]
    exact List.take_of_length_le (by rw [hv]; exact hk)

/-- Claim C7, witness: three users, page 2 with limit 2 — one user
returned. -/
theorem claim_C7_witness :
    (getUsers authUsersW 2 2).users.length = min 2 (Store.size authUsersW - 2) :=
  (claim_C7 authUsersW 2 2 (by decide) (by decide)).1

/-- Claim C4, counterexample to the claim as stated: the authenticated
POST /pets stores the caller-supplied status verbatim, so a pet can be
created with status Adopted and is not Available immediately after
creation. -/
theorem claim_C4_counterexample :
    postPetAuth [] (.vstr "u1") (.vstr "Tom") (.vstr "Cat") (.vstr "Mix") (.vnum 2)
        (.vstr "calm") (.vstr "Adopted") "p2" 0 = ([("p2", adoptedPet)], .ok adoptedPet) ∧
      adoptedPet.status = "Adopted" ∧ ¬ adoptedPet.status = "Available" := by
  decide

/-- Claim C4, amended: a created Pet's status is exactly the status string
supplied by the caller (any non-empty string, including Adopted), and PUT
/pets/:id overwrites the status directly with any non-empty caller-supplied
string; no operation derives Adopted from an approved adoption request. -/
theorem claim_C4 :
    (∀ (store : Store Pet) (o n sp b : String) (a : Int) (d st newId : String)
        (now : Nat),
        o ≠ "" → n ≠ "" → sp ≠ "" → b ≠ "" → a ≠ 0 → d ≠ "" → st ≠ "" →
        ∃ pet : Pet,
          postPetAuth store (.vstr o) (.vstr n) (.vstr sp) (.vstr b) (.vnum a)
              (.vstr d) (.vstr st) newId now = (Store.insert store newId pet, .ok pet) ∧
            pet.status = st) ∧
    (∀ (store : Store Pet) (pid : String) (p : Pet) (st : String),
        Store.get store pid = some p → st ≠ "" →
        (putPet store pid .vnull .vnull .vnull .vnull .vnull (.vstr st)).2 =
          .ok { p with status := st }) := by
  constructor
  · intro store o n sp b a d st newId now ho hn hsp hb ha hd hst
    exact ⟨_, postPetAuth_ok store o n sp b a d st newId now ho hn hsp hb ha hd hst, rfl⟩
  · intro store pid p st h hst
    unfold putPet
    rw [h]
    simp [JsVal.asTruthyStr, JsVal.asTruthyNum, hst]

/-- Claim C4, witness: creating a pet with status Adopted, and updating an
available pet's status to Adopted. -/
theorem claim_C4_witness :
    (∃ pet : Pet,
        postPetAuth [] (.vstr "u1") (.vstr "Tom") (.vstr "Cat") (.vstr "Mix") (.vnum 2)
            (.vstr "calm") (.vstr "Adopted") "p2" 0 = (Store.insert [] "p2" pet, .ok pet) ∧
          pet.status = "Adopted") ∧
      (putPet petsW "a" .vnull .vnull .vnull .vnull .vnull (.vstr "Adopted")).2 =
        .ok { petA with status := "Adopted" } :=
  ⟨claim_C4.1 [] "u1" "Tom" "Cat" "Mix" 2 "calm" "Adopted" "p2" 0 (by decide) (by decide)
      (by decide) (by decide) (by decide) (by decide) (by decide),
    claim_C4.2 petsW "a" petA "Adopted" (by decide) (by decide)⟩

/-- Claim C5, counterexample to the claim as stated: the unauthenticated
POST /adoption-requests stores the caller-supplied status verbatim, so a
successful submission can store a request whose status is not Pending. -/
theorem claim_C5_counterexample :
    postAdoptionRequestUnauth [("p1", petP1)] [] (.vstr "p1") (.vstr "u2")
        (.vstr "Approved") "r1" 0 = ([("r1", approvedOnCreate)], .ok approvedOnCreate) ∧
      approvedOnCreate.status ≠ "Pending" := by
  decide

/-- Claim C5, amended: the authenticated submission never consults any pet
store — it succeeds for every non-empty petId, storing a request with
status Pending and null approvedAt; the unauthenticated submission does
require the pet to exist (failing with the invalid-petId error and leaving
the store unchanged otherwise) but stores the caller-supplied status, with
null approvedAt, on success. -/
theorem claim_C5 :
    (∀ (store : Store AdoptionRequest) (adopterId petId newId : String) (now : Nat),
        petId ≠ "" →
        postAdoptionRequestAuth store adopterId (.vstr petId) newId now =
          (Store.insert store newId
            { id := newId, petId := petId, adopterId := adopterId
              status := "Pending", requestedAt := now, approvedAt := none },
           .ok { id := newId, petId := petId, adopterId := adopterId
                 status := "Pending", requestedAt := now, approvedAt := none })) ∧
    (∀ (pets : Store Pet) (store : Store AdoptionRequest)
        (petId adopterId status newId : String) (now : Nat),
        petId ≠ "" → adopterId ≠ "" → status ≠ "" →
        (Store.get pets petId = none →
          postAdoptionRequestUnauth pets store (.vstr petId) (.vstr adopterId)
              (.vstr status) newId now =
            (store, .error "Invalid input: petId is not a valid pet ID.")) ∧
        (∀ p : Pet, Store.get pets petId = some p →
          postAdoptionRequestUnauth pets store (.vstr petId) (.vstr adopterId)
              (.vstr status) newId now =
            (Store.insert store newId
              { id := newId, petId := petId, adopterId := adopterId
                status := status, requestedAt := now, approvedAt := none },
             .ok { id := newId, petId := petId, adopterId := adopterId
                   status := status, requestedAt := now, approvedAt := none }))) := by
  constructor
  · intro store adopterId petId newId now hp
    unfold postAdoptionRequestAuth
    simp [JsVal.asTruthyStr, hp]
  · intro pets store petId adopterId status newId now h1 h2 h3
    constructor
    · intro hg
      unfold postAdoptionRequestUnauth
      simp [JsVal.asTruthyStr, h1, h2, h3, hg]
    · intro p hg
      unfold postAdoptionRequestUnauth
      simp [JsVal.asTruthyStr, h1, h2, h3, hg]

/-- Claim C5, witness: the authenticated submission succeeds for a petId
that no pet store resolves. -/
theorem claim_C5_witness :
    postAdoptionRequestAuth [] "u2" (.vstr "nopet") "r7" 3 =
      (Store.insert [] "r7"
        { id := "r7", petId := "nopet", adopterId := "u2", status := "Pending"
          requestedAt := 3, approvedAt := none },
       .ok { id := "r7", petId := "nopet", adopterId := "u2", status := "Pending"
             requestedAt := 3, approvedAt := none }) :=
  claim_C5.1 [] "u2" "nopet" "r7" 3 (by decide)

/-- Claim C8, counterexample to the claim as stated: the authenticated
POST /pets performs no ownerId existence check — with an empty user store,
a pet owned by the unknown id ghost is created successfully. -/
theorem claim_C8_counterexample :
    Store.get ([] : Store User) "ghost" = none ∧
      postPetAuth [] (.vstr "ghost") (.vstr "Rex") (.vstr "Dog") (.vstr "Lab")
          (.vnum 3) (.vstr "friendly") (.vstr "Available") "p9" 0 =
        ([("p9", ghostPet)], .ok ghostPet) := by
  decide

/-- Claim C8, amended: only the unauthenticated POST /pets checks that
ownerId resolves to a user, failing with the invalid-ownerId error and
leaving the pet store unchanged when it does not; the authenticated POST
/pets takes no user store at all and creates the pet for any well-typed
fields. -/
theorem claim_C8 :
    (∀ (store : Store Pet) (o n sp b : String) (a : Int) (d st newId : String)
        (now : Nat),
        o ≠ "" → n ≠ "" → sp ≠ "" → b ≠ "" → a ≠ 0 → d ≠ "" → st ≠ "" →
        ∃ pet : Pet,
          postPetAuth store (.vstr o) (.vstr n) (.vstr sp) (.vstr b) (.vnum a)
              (.vstr d) (.vstr st) newId now = (Store.insert store newId pet, .ok pet) ∧
            pet.ownerId = o) ∧
    (∀ (users : Store User) (store : Store Pet) (o n sp b : String) (a : Int)
        (d st newId : String) (now : Nat),
        o ≠ "" → n ≠ "" → sp ≠ "" → b ≠ "" → a ≠ 0 → d ≠ "" → st ≠ "" →
        Store.get users o = none →
        postPetUnauth users store (.vstr o) (.vstr n) (.vstr sp) (.vstr b) (.vnum a)
            (.vstr d) (.vstr st) newId now =
          (store, .error "Invalid input: ownerId is not a valid owner ID.")) := by
  constructor
  · intro store o n sp b a d st newId now ho hn hsp hb ha hd hst
    exact ⟨_, postPetAuth_ok store o n sp b a d st newId now ho hn hsp hb ha hd hst, rfl⟩
  · intro users store o n sp b a d st newId now ho hn hsp hb ha hd hst hg
    unfold postPetUnauth
    simp [JsVal.asTruthyStr, JsVal.asTruthyNum, ho, hn, hsp, hb, ha, hd, hst, hg]

/-- Claim C8, witness: the unauthenticated POST /pets with an empty user
store rejects the dangling ownerId and stores nothing. -/
theorem claim_C8_witness :
    postPetUnauth [] [] (.vstr "ghost") (.vstr "Rex") (.vstr "Dog") (.vstr "Lab")
        (.vnum 3) (.vstr "friendly") (.vstr "Available") "p9" 0 =
      ([], .error "Invalid input: ownerId is not a valid owner ID.") :=
  claim_C8.2 [] [] "ghost" "Rex" "Dog" "Lab" 3 "friendly" "Available" "p9" 0
    (by decide) (by decide) (by decide) (by decide) (by decide) (by decide)
    (by decide) rfl

/-- Claim C9, counterexample to the claim as stated: a feedback with
rating 6 is accepted and stored by the authenticated POST /feedbacks —
the handlers never compare the rating against the range 1 to 5. -/
theorem claim_C9_counterexample :
    postFeedbackAuth [] "u1" .vnull .vnull (.vstr "great") (.vnum 6) "f1" 0 =
        ([("f1", fb6)], .ok fb6) ∧
      fb6.rating = 6 ∧ ¬ (1 ≤ fb6.rating ∧ fb6.rating ≤ 5) := by
  decide

/-- Claim C9, amended: the feedback handlers only require the rating to be
a truthy number — any non-zero number (including 6 or -1) is accepted and
stored verbatim, while rating 0, being falsy, is rejected by the generic
missing-field validation (not a range check) with the store unchanged; the
same holds in the unauthenticated revision once its reference checks
pass. -/
theorem claim_C9 :
    (∀ (store : Store Feedback) (userId : String) (petIdB eventIdB : JsVal)
        (po eo : Option String) (text : String) (n : Int) (newId : String) (now : Nat),
        petIdB.optStrArg = some po → eventIdB.optStrArg = some eo →
        text ≠ "" → n ≠ 0 →
        postFeedbackAuth store userId petIdB eventIdB (.vstr text) (.vnum n) newId now =
          (Store.insert store newId
            { id := newId, userId := userId, petId := po, eventId := eo
              feedback := text, rating := n, createdAt := now },
           .ok { id := newId, userId := userId, petId := po, eventId := eo
                 feedback := text, rating := n, createdAt := now })) ∧
    (∀ (store : Store Feedback) (userId : String) (petIdB eventIdB feedbackB : JsVal)
        (newId : String) (now : Nat),
        postFeedbackAuth store userId petIdB eventIdB feedbackB (.vnum 0) newId now =
          (store, .error "Invalid input: missing or mistyped feedback fields.")) ∧
    (∀ (users : Store User) (pets : Store Pet) (events : Store PetCareEvent)
        (store : Store Feedback) (uid : String) (u : User) (text : String) (n : Int)
        (newId : String) (now : Nat),
        Store.get users uid = some u → uid ≠ "" → text ≠ "" → n ≠ 0 →
        postFeedbackUnauth users pets events store (.vstr uid) (.vstr text) (.vnum n)
            .vnull .vnull newId now =
          (Store.insert store newId
            { id := newId, userId := uid, petId := none, eventId := none
              feedback := text, rating := n, createdAt := now },
           .ok { id := newId, userId := uid, petId := none, eventId := none
                 feedback := text, rating := n, createdAt := now })) := by
  refine ⟨?_, ?_, ?_⟩
  · intro store userId petIdB eventIdB po eo text n newId now h1 h2 ht hn
    unfold postFeedbackAuth
    simp [JsVal.asTruthyStr, JsVal.asTruthyNum, h1, h2, ht, hn]
  · intro store userId petIdB eventIdB feedbackB newId now
    unfold postFeedbackAuth
    cases h : feedbackB.asTruthyStr <;> simp [JsVal.asTruthyNum, h]
  · intro users pets events store uid u text n newId now hu huid ht hn
    unfold postFeedbackUnauth
    simp [JsVal.asTruthyStr, JsVal.asTruthyNum, JsVal.optStrArg, hu, huid, ht, hn]

/-- Claim C9, witness: rating 5 accepted with the record stored. -/
theorem claim_C9_witness :
    postFeedbackAuth [] "u1" .vnull .vnull (.vstr "nice") (.vnum 5) "f2" 1 =
      (Store.insert [] "f2"
        { id := "f2", userId := "u1", petId := none, eventId := none
          feedback := "nice", rating := 5, createdAt := 1 },
       .ok { id := "f2", userId := "u1", petId := none, eventId := none
             feedback := "nice", rating := 5, createdAt := 1 }) :=
  claim_C9.1 [] "u1" .vnull .vnull none none "nice" 5 "f2" 1 rfl rfl
    (by decide) (by decide)

/-- Claim C10, confirmed: each successful PUT on users, pets, feedbacks and
donations re-inserts under the same key a record whose id and createdAt
equal the stored record's, and whose non-whitelisted reference fields
(ownerId, userId, petId, eventId, donorId) are also unchanged; only the
conditionally overwritten fields can differ. -/
theorem claim_C10 :
    (∀ (store : Store User) (uid : String) (nB cB uB : JsVal) (u v : User),
        Store.get store uid = some u → (putUser store uid nB cB uB).2 = .ok v →
        (putUser store uid nB cB uB).1 = Store.insert store uid v ∧
          v.id = u.id ∧ v.createdAt = u.createdAt) ∧
    (∀ (store : Store Pet) (pid : String) (nB spB bB aB dB stB : JsVal) (p v : Pet),
        Store.get store pid = some p →
        (putPet store pid nB spB bB aB dB stB).2 = .ok v →
        (putPet store pid nB spB bB aB dB stB).1 = Store.insert store pid v ∧
          v.id = p.id ∧ v.createdAt = p.createdAt ∧ v.ownerId = p.ownerId) ∧
    (∀ (store : Store Feedback) (fid : String) (fB rB : JsVal) (f v : Feedback),
        Store.get store fid = some f → (putFeedback store fid fB rB).2 = .ok v →
        (putFeedback store fid fB rB).1 = Store.insert store fid v ∧
          v.id = f.id ∧ v.createdAt = f.createdAt ∧ v.userId = f.userId ∧
          v.petId = f.petId ∧ v.eventId = f.eventId) ∧
    (∀ (store : Store Donation) (did : String) (aB : JsVal) (d v : Donation),
        Store.get store did = some d → (putDonation store did aB).2 = .ok v →
        (putDonation store did aB).1 = Store.insert store did v ∧
          v.id = d.id ∧ v.createdAt = d.createdAt ∧ v.donorId = d.donorId) := by
  refine ⟨?_, ?_, ?_, ?_⟩
  · intro store uid nB cB uB u v hg hv
    unfold putUser at hv ⊢
    rw [hg] at hv ⊢
    rcases hn : nB.asTruthyStr with - | s1 <;>
      rcases hc : cB.asTruthyStr with - | s2 <;>
        rcases hub : uB.asTruthyStr with - | s3 <;>
          simp only [hn, hc, hub] at hv ⊢ <;>
            (rw [Except.ok.injEq] at hv; subst hv; exact ⟨rfl, rfl, rfl⟩)
  · intro store pid nB spB bB aB dB stB p v hg hv
    unfold putPet at hv ⊢
    rw [hg] at hv ⊢
    rcases hn : nB.asTruthyStr with - | s1 <;>
      rcases hsp : spB.asTruthyStr with - | s2 <;>
        rcases hb : bB.asTruthyStr with - | s3 <;>
          rcases ha : aB.asTruthyNum with - | a1 <;>
            rcases hd : dB.asTruthyStr with - | s4 <;>
              rcases hst : stB.asTruthyStr with - | s5 <;>
                simp only [hn, hsp, hb, ha, hd, hst] at hv ⊢ <;>
                  (rw [Except.ok.injEq] at hv; subst hv; exact ⟨rfl, rfl, rfl, rfl⟩)
  · intro store fid fB rB f v hg hv
    unfold putFeedback at hv ⊢
    rw [hg] at hv ⊢
    rcases hf : fB.asTruthyStr with - | s1 <;>
      rcases hr : rB.asTruthyNum with - | r1 <;>
        simp only [hf, hr] at hv ⊢ <;>
          (rw [Except.ok.injEq] at hv; subst hv; exact ⟨rfl, rfl, rfl, rfl, rfl, rfl⟩)
  · intro store did aB d v hg hv
    unfold putDonation at hv ⊢
    rw [hg] at hv ⊢
    rcases ha : aB.asTruthyNum with - | a1 <;>
      simp only [ha] at hv ⊢ <;>
        (rw [Except.ok.injEq] at hv; subst hv; exact ⟨rfl, rfl, rfl, rfl⟩)

/-- Claim C10, witness: updating a user's name leaves id and createdAt
unchanged. -/
theorem claim_C10_witness :
    (putUser usersW "u1" (.vstr "Ann") .vnull .vnull).1 =
        Store.insert usersW "u1" { userU1 with name := "Ann" } ∧
      ({ userU1 with name := "Ann" } : User).id = userU1.id ∧
      ({ userU1 with name := "Ann" } : User).createdAt = userU1.createdAt :=
  claim_C10.1 usersW "u1" (.vstr "Ann") .vnull .vnull userU1
    { userU1 with name := "Ann" } (by decide) (by decide)
